import Mathlib

/-! # Repetier-Firmware heat manager (`src/Repetier/src/drivers/heatManager.h`)

A shallow embedding of the inline operations of `HeatManager` and
`HeatManagerBangBang`, followed by the properties established about them.

Modelling conventions

* `float` values are only ever stored and compared in the header (there is no
  float arithmetic), so a value is modelled by `Flt`: not-a-number, the two
  infinities, or a finite value carried as a rational.  The comparisons follow
  IEEE 754: every ordered comparison with a NaN operand is false.  The two
  signed zeros compare equal and are not told apart.
* `output->set(v)` is recorded by prepending `v` to the log `output` of values
  commanded to the Power Output, so the head of the log is the value commanded
  last and an unchanged log means that nothing was commanded.
* `HAL::timeInMilliseconds()` is the argument `now` of the operations that read
  the clock.
* `Com::print...` calls only write to the serial line and are left out.
-/

namespace Repetier

/-! ## Float values and their comparisons -/

/-- Values of the C++ type `float`, as far as storing and comparing them goes. -/
inductive Flt where
  | nan
  | negInf
  | fin (q : ℚ)
  | posInf
  deriving DecidableEq

namespace Flt

/-- The literal `0` converted to `float`. -/
def zero : Flt := fin 0

/-- The C++ comparison `a < b`. -/
def lt : Flt → Flt → Bool
  | nan, _ => false
  | _, nan => false
  | negInf, negInf => false
  | negInf, _ => true
  | fin _, negInf => false
  | fin a, fin b => decide (a < b)
  | fin _, posInf => true
  | posInf, _ => false

/-- The C++ comparison `a <= b`. -/
def le : Flt → Flt → Bool
  | nan, _ => false
  | _, nan => false
  | negInf, _ => true
  | fin _, negInf => false
  | fin a, fin b => decide (a ≤ b)
  | fin _, posInf => true
  | posInf, posInf => true
  | posInf, _ => false

/-- The C++ comparison `a > b`. -/
def gt (a b : Flt) : Bool := lt b a

/-- Whether the value is a NaN. -/
def isNaN : Flt → Bool
  | nan => true
  | _ => false

end Flt

/-! ## Enumerations -/

/-- The enum `HeaterError`. -/
inductive HeaterError where
  | NO_ERROR
  | SENSOR_DEFECT
  | NO_HEATUP
  | LEAVING_RANGE
  deriving DecidableEq

/-- The enum `DecoupleMode`. -/
inductive DecoupleMode where
  | NO_HEATING
  | FAST_RISING
  | SWING_IN
  | HOLDING
  | COOLING
  | CALIBRATING
  | PAUSED
  | UNPLUGGED
  deriving DecidableEq

/-! ## The heater object -/

/-- The data members of `class HeatManager`.  The pointer `output` is
represented by the log of the values passed to `output->set`, most recent
first; the pointer `input` is never dereferenced in the header and has no
field.  `millis_t`, `uint8_t` and `uint16_t` members are naturals, the
`fast8_t` and `int16_t` members are integers. -/
structure HeatManager where
  error : HeaterError
  targetTemperature : Flt
  currentTemperature : Flt
  maxTemperature : Flt
  output : List Nat
  maxPWM : Nat
  decoupleVariance : Flt
  decouplePeriod : Nat
  decoupleMode : DecoupleMode
  errorCount : Int
  heaterType : Char
  index : Int
  hotPluggable : Bool
  sampleTime : Nat
  lastDecoupleTest : Nat
  lastDecoupleTemp : Flt
  preheatStartTime : Nat
  preheatTemperature : Int
  wasOutsideRange : Int
  eepromPos : Nat
  lastUpdate : Nat
  deriving DecidableEq

namespace HeatManager

/-- The call `output->set(v)`. -/
def outputSet (v : Nat) (s : HeatManager) : HeatManager :=
  { s with output := v :: s.output }

/-- The value commanded to the Power Output last, if any. -/
def lastOutput (s : HeatManager) : Option Nat := s.output.head?

/-- `HeatManager::setTargetTemperature(float temp)`, with `now` the value of
`HAL::timeInMilliseconds()`. -/
def setTargetTemperature (temp : Flt) (now : Nat) (s : HeatManager) : HeatManager :=
  if temp.gt s.maxTemperature then
    s
  else
    let s1 : HeatManager :=
      if temp.le Flt.zero then
        { s with decoupleMode := DecoupleMode.NO_HEATING }
      else if temp.lt s.currentTemperature then
        { s with decoupleMode := DecoupleMode.COOLING }
      else
        { s with decoupleMode := DecoupleMode.FAST_RISING,
                 lastDecoupleTest := now,
                 lastDecoupleTemp := s.currentTemperature }
    { s1 with targetTemperature := temp }

/-- `HeatManager::isEnabled()`, with the constant `MAX_ROOM_TEMPERATURE` as a
parameter. -/
def isEnabled (maxRoomTemperature : Flt) (s : HeatManager) : Bool :=
  decide (s.decoupleMode ≠ DecoupleMode.PAUSED) && s.targetTemperature.gt maxRoomTemperature

/-- `HeatManager::pause()`. -/
def pause (s : HeatManager) : HeatManager :=
  if s.decoupleMode ≠ DecoupleMode.NO_HEATING then
    outputSet 0 { s with decoupleMode := DecoupleMode.PAUSED }
  else
    s

/-- `HeatManager::unpause()`. -/
def unpause (now : Nat) (s : HeatManager) : HeatManager :=
  setTargetTemperature s.targetTemperature now s

/-- `HeatManager::isUnplugged()`. -/
def isUnplugged (s : HeatManager) : Bool := decide (s.decoupleMode = DecoupleMode.UNPLUGGED)

/-- `HeatManager::isPaused()`. -/
def isPaused (s : HeatManager) : Bool := decide (s.decoupleMode = DecoupleMode.PAUSED)

/-- `HeatManager::getTargetTemperature()`. -/
def getTargetTemperature (s : HeatManager) : Flt := s.targetTemperature

/-- `HeatManager::setCurrentTemperature(float temp)`. -/
def setCurrentTemperature (temp : Flt) (s : HeatManager) : HeatManager :=
  { s with currentTemperature := temp }

/-- `HeatManager::getCurrentTemperature()`. -/
def getCurrentTemperature (s : HeatManager) : Flt := s.currentTemperature

/-- `HeatManager::getError()`. -/
def getError (s : HeatManager) : HeaterError := s.error

/-- `HeatManager::resetError()`. -/
def resetError (s : HeatManager) : HeatManager :=
  { s with error := HeaterError.NO_ERROR }

/-- `HeatManager::setError(HeaterError err)`. -/
def setError (err : HeaterError) (s : HeatManager) : HeatManager :=
  let s1 : HeatManager := { s with error := err }
  if err ≠ HeaterError.NO_ERROR then
    { outputSet 0 s1 with decoupleMode := DecoupleMode.NO_HEATING }
  else
    s1

/-- `HeatManager::getMaxPWM()`. -/
def getMaxPWM (s : HeatManager) : Nat := s.maxPWM

/-- `HeatManager::setMaxPWM(uint8_t m)`: the argument is converted to
`uint8_t` at the call. -/
def setMaxPWM (m : Nat) (s : HeatManager) : HeatManager :=
  { s with maxPWM := m % 256 }

/-- `HeatManager::getMaxTemperature()`. -/
def getMaxTemperature (s : HeatManager) : Flt := s.maxTemperature

end HeatManager

/-! ## The Bang-Bang heater -/

namespace HeatManagerBangBang

open HeatManager

/-- `HeatManagerBangBang::updateLocal(float tempError)`. -/
def updateLocal (_tempError : Flt) (s : HeatManager) : HeatManager :=
  outputSet (if s.currentTemperature.gt s.targetTemperature then 0 else s.maxPWM) s

/-- `HeatManagerBangBang::resetFromConfig(fast8_t _maxPwm, float decVariance,
millis_t decPeriod)`: the `fast8_t` argument is converted to `uint8_t` by the
assignment to `maxPWM`. -/
def resetFromConfig (_maxPwm : Int) (decVariance : Flt) (decPeriod : Nat)
    (s : HeatManager) : HeatManager :=
  { s with maxPWM := (_maxPwm % 256).toNat,
           decoupleVariance := decVariance,
           decouplePeriod := decPeriod }

end HeatManagerBangBang

/-! ## The operations as a step function -/

/-- A call of one of the state-changing operations of the header on a
Bang-Bang heater, with its arguments (and the clock value where the operation
reads the clock). -/
inductive Op where
  | setTargetTemperature (temp : Flt) (now : Nat)
  | pause
  | unpause (now : Nat)
  | setCurrentTemperature (temp : Flt)
  | setError (err : HeaterError)
  | resetError
  | setMaxPWM (m : Nat)
  | updateLocal (tempError : Flt)
  | resetFromConfig (_maxPwm : Int) (decVariance : Flt) (decPeriod : Nat)
  deriving DecidableEq

/-- The state after one call. -/
def step (o : Op) (s : HeatManager) : HeatManager :=
  match o with
  | Op.setTargetTemperature temp now => s.setTargetTemperature temp now
  | Op.pause => s.pause
  | Op.unpause now => s.unpause now
  | Op.setCurrentTemperature temp => s.setCurrentTemperature temp
  | Op.setError err => s.setError err
  | Op.resetError => s.resetError
  | Op.setMaxPWM m => s.setMaxPWM m
  | Op.updateLocal tempError => HeatManagerBangBang.updateLocal tempError s
  | Op.resetFromConfig p v d => HeatManagerBangBang.resetFromConfig p v d s

/-- The state after a sequence of calls, the first call of the list first. -/
def run : List Op → HeatManager → HeatManager
  | [], s => s
  | o :: os, s => run os (step o s)

/-- A heater as it may stand after start-up: no fault, heater off, room
temperature sampled, nothing commanded yet. -/
def sampleHeater : HeatManager where
  error := HeaterError.NO_ERROR
  targetTemperature := Flt.fin 0
  currentTemperature := Flt.fin 20
  maxTemperature := Flt.fin 300
  output := []
  maxPWM := 255
  decoupleVariance := Flt.fin 5
  decouplePeriod := 30000
  decoupleMode := DecoupleMode.NO_HEATING
  errorCount := 0
  heaterType := 'E'
  index := 0
  hotPluggable := false
  sampleTime := 100
  lastDecoupleTest := 0
  lastDecoupleTemp := Flt.fin 0
  preheatStartTime := 0
  preheatTemperature := 0
  wasOutsideRange := 0
  eepromPos := 0
  lastUpdate := 0

/-- A heater that holds 200 degrees: target set, temperature reached, full
power commanded last. -/
def holdingHeater : HeatManager :=
  { sampleHeater with
      targetTemperature := Flt.fin 200,
      currentTemperature := Flt.fin 200,
      decoupleMode := DecoupleMode.HOLDING,
      output := [255],
      lastDecoupleTest := 5000,
      lastDecoupleTemp := Flt.fin 180 }

/-- A heater that was paused while heating. -/
def pausedHeater : HeatManager :=
  { holdingHeater with decoupleMode := DecoupleMode.PAUSED, output := [0, 255] }

/-- A heater configured with a ceiling below zero degrees. -/
def subZeroCeilingHeater : HeatManager :=
  { holdingHeater with
      maxTemperature := Flt.fin (-10),
      targetTemperature := Flt.fin (-20),
      currentTemperature := Flt.fin (-20) }

/-- A heater in a frosty room: it heats towards 200 while its sensor reads
five degrees below zero. -/
def frostHeater : HeatManager :=
  { holdingHeater with
      currentTemperature := Flt.fin (-5),
      decoupleMode := DecoupleMode.FAST_RISING,
      lastDecoupleTemp := Flt.fin (-8) }

/-! ## Predicates used by the properties -/

/-- The fault invariant: a latched fault means mode `NO_HEATING` and a last
commanded output of 0. -/
def FaultInv (s : HeatManager) : Prop :=
  s.error ≠ HeaterError.NO_ERROR →
    s.decoupleMode = DecoupleMode.NO_HEATING ∧ s.lastOutput = some 0

/-- The calls that can select a heating mode: `unpause()` and
`setTargetTemperature(temp)` other than with `temp <= 0`. -/
def Op.heats : Op → Bool
  | Op.setTargetTemperature temp _ => !temp.le Flt.zero
  | Op.unpause _ => true
  | _ => false

/-- The calls of the Bang-Bang `updateLocal`. -/
def Op.drives : Op → Bool
  | Op.updateLocal _ => true
  | _ => false

/-- In the sequence of calls `os` started in state `s`, no call of the kind
`p` is made in a state with a latched fault (`error != NO_ERROR`). -/
def noneWhileFaulted (p : Op → Bool) : List Op → HeatManager → Bool
  | [], _ => true
  | o :: os, s =>
      (decide (s.error = HeaterError.NO_ERROR) || !p o) && noneWhileFaulted p os (step o s)

/-- The calls that assign the member `error`: `setError` and `resetError`. -/
def Op.writesError : Op → Bool
  | Op.setError _ => true
  | Op.resetError => true
  | _ => false

/-- A `setTargetTemperature` call whose argument is a NaN. -/
def Op.requestsNaN : Op → Bool
  | Op.setTargetTemperature temp _ => temp.isNaN
  | _ => false

/-- The data members proper: the state with the log of commanded values
emptied, so that two states with equal `members` differ at most in what was
commanded to the Power Output. -/
def HeatManager.members (s : HeatManager) : HeatManager :=
  { s with output := [] }

/-- The calls that go through `setTargetTemperature`: the call itself and
`unpause`. -/
def Op.setsTarget : Op → Bool
  | Op.setTargetTemperature _ _ => true
  | Op.unpause _ => true
  | _ => false

/-- The calls `setError(err)` with a fault, `err != NO_ERROR`. -/
def Op.setsFault : Op → Bool
  | Op.setError err => decide (err ≠ HeaterError.NO_ERROR)
  | _ => false

/-- The calls `setCurrentTemperature(temp)`. -/
def Op.samples : Op → Bool
  | Op.setCurrentTemperature _ => true
  | _ => false

/-- A heater with a latched `NO_HEATUP` fault: switched off by `setError`
at 20 degrees while its target is still 200. -/
def faultedHeater : HeatManager :=
  { sampleHeater with
      error := HeaterError.NO_HEATUP,
      targetTemperature := Flt.fin 200,
      output := [0, 255] }

/-- A heater heating towards 200 from 20 degrees. -/
def risingHeater : HeatManager :=
  { sampleHeater with
      targetTemperature := Flt.fin 200,
      decoupleMode := DecoupleMode.FAST_RISING,
      output := [255],
      lastDecoupleTest := 1000,
      lastDecoupleTemp := Flt.fin 20 }

/-! ## Facts about the float comparisons -/

namespace Flt

theorem gt_eq_false_of_le {a b : Flt} (h : a.le b = true) : a.gt b = false := by
  cases a <;> cases b <;> simp_all [Flt.le, Flt.gt, Flt.lt]

theorem lt_eq_false_of_lt {a b : Flt} (h : a.lt b = true) : b.lt a = false := by
  cases a <;> cases b <;> simp_all [Flt.lt]
  exact le_of_lt h

theorem le_eq_false_of_lt {a b : Flt} (h : a.lt b = true) : b.le a = false := by
  cases a <;> cases b <;> simp_all [Flt.lt, Flt.le]

theorem le_of_gt_eq_false {a b : Flt} (ha : a.isNaN = false) (hb : b.isNaN = false)
    (h : a.gt b = false) : a.le b = true := by
  cases a <;> cases b <;> simp_all [Flt.le, Flt.gt, Flt.lt, Flt.isNaN]

theorem isNaN_eq_false_of_le {a b : Flt} (h : a.le b = true) :
    a.isNaN = false ∧ b.isNaN = false := by
  cases a <;> cases b <;> simp_all [Flt.le, Flt.isNaN]

theorem le_chain {a b c : Flt} (hab : a.le b = true) (hbc : b.le c = true) :
    a.le c = true := by
  cases a <;> cases b <;> cases c <;> simp_all [Flt.le]
  exact hab.trans hbc

end Flt

/-! ## Frame facts shared by the properties -/

open HeatManager

theorem setTargetTemperature_error (s : HeatManager) (temp : Flt) (now : Nat) :
    (s.setTargetTemperature temp now).error = s.error := by
  unfold HeatManager.setTargetTemperature
  split_ifs <;> rfl

theorem setTargetTemperature_output (s : HeatManager) (temp : Flt) (now : Nat) :
    (s.setTargetTemperature temp now).output = s.output := by
  unfold HeatManager.setTargetTemperature
  split_ifs <;> rfl

theorem setTargetTemperature_maxTemperature (s : HeatManager) (temp : Flt) (now : Nat) :
    (s.setTargetTemperature temp now).maxTemperature = s.maxTemperature := by
  unfold HeatManager.setTargetTemperature
  split_ifs <;> rfl

theorem pause_error (s : HeatManager) : s.pause.error = s.error := by
  unfold HeatManager.pause
  split_ifs <;> rfl

theorem step_error (o : Op) (s : HeatManager) (h : o.writesError = false) :
    (step o s).error = s.error := by
  cases o with
  | setTargetTemperature temp now => exact setTargetTemperature_error s temp now
  | pause => exact pause_error s
  | unpause now => exact setTargetTemperature_error s s.targetTemperature now
  | setError err => simp [Op.writesError] at h
  | resetError => simp [Op.writesError] at h
  | setCurrentTemperature temp => rfl
  | setMaxPWM m => rfl
  | updateLocal e => rfl
  | resetFromConfig p v d => rfl

theorem run_error (os : List Op) (s : HeatManager)
    (h : os.all (fun o => !o.writesError) = true) : (run os s).error = s.error := by
  induction os generalizing s with
  | nil => rfl
  | cons o os ih =>
    simp only [List.all_cons, Bool.and_eq_true] at h
    have ho : o.writesError = false := by simpa using h.1
    rw [run, ih (step o s) h.2, step_error o s ho]

theorem setTargetTemperature_targetTemperature (s : HeatManager) (temp : Flt) (now : Nat)
    (h : temp.gt s.maxTemperature = false) :
    (s.setTargetTemperature temp now).targetTemperature = temp := by
  unfold HeatManager.setTargetTemperature
  simp [h]

theorem pause_output_of_fault (s : HeatManager)
    (h : s.error ≠ HeaterError.NO_ERROR → s.lastOutput = some 0)
    (herr : s.error ≠ HeaterError.NO_ERROR) : s.pause.lastOutput = some 0 := by
  by_cases hm : s.decoupleMode = DecoupleMode.NO_HEATING
  · have hp : s.pause = s := by simp [HeatManager.pause, hm]
    rw [hp]
    exact h herr
  · simp [HeatManager.pause, hm, HeatManager.outputSet, HeatManager.lastOutput]

theorem step_faultMode (o : Op) (s : HeatManager)
    (hinv : s.error ≠ HeaterError.NO_ERROR → s.decoupleMode = DecoupleMode.NO_HEATING)
    (h : s.error = HeaterError.NO_ERROR ∨ o.heats = false)
    (herr : (step o s).error ≠ HeaterError.NO_ERROR) :
    (step o s).decoupleMode = DecoupleMode.NO_HEATING := by
  cases o with
  | setTargetTemperature temp now =>
    simp only [step, setTargetTemperature_error] at herr
    rcases h with h | h
    · exact absurd h herr
    · have hle : temp.le Flt.zero = true := by simpa [Op.heats] using h
      simp only [step]
      unfold HeatManager.setTargetTemperature
      by_cases hg : temp.gt s.maxTemperature = true
      · simp [hg, hinv herr]
      · simp [hg, hle]
  | pause =>
    simp only [step, pause_error] at herr
    have hp : s.pause = s := by simp [HeatManager.pause, hinv herr]
    simp only [step, hp]
    exact hinv herr
  | unpause now =>
    simp only [step, HeatManager.unpause, setTargetTemperature_error] at herr
    rcases h with h | h
    · exact absurd h herr
    · simp [Op.heats] at h
  | setCurrentTemperature temp => exact hinv herr
  | setError err =>
    have he : err ≠ HeaterError.NO_ERROR := by
      intro hc
      exact herr (by simp [step, HeatManager.setError, hc])
    simp [step, HeatManager.setError, he]
  | resetError => exact absurd rfl herr
  | setMaxPWM m => exact hinv herr
  | updateLocal e => exact hinv herr
  | resetFromConfig p v d => exact hinv herr

theorem step_faultOutput (o : Op) (s : HeatManager)
    (hinv : s.error ≠ HeaterError.NO_ERROR → s.lastOutput = some 0)
    (h : s.error = HeaterError.NO_ERROR ∨ o.drives = false)
    (herr : (step o s).error ≠ HeaterError.NO_ERROR) :
    (step o s).lastOutput = some 0 := by
  cases o with
  | setTargetTemperature temp now =>
    simp only [step, setTargetTemperature_error] at herr
    simp only [step, HeatManager.lastOutput, setTargetTemperature_output]
    exact hinv herr
  | pause =>
    simp only [step, pause_error] at herr
    exact pause_output_of_fault s hinv herr
  | unpause now =>
    simp only [step, HeatManager.unpause, setTargetTemperature_error] at herr
    simp only [step, HeatManager.unpause, HeatManager.lastOutput,
      setTargetTemperature_output]
    exact hinv herr
  | setCurrentTemperature temp => exact hinv herr
  | setError err =>
    have he : err ≠ HeaterError.NO_ERROR := by
      intro hc
      exact herr (by simp [step, HeatManager.setError, hc])
    simp [step, HeatManager.setError, he, HeatManager.outputSet, HeatManager.lastOutput]
  | resetError => exact absurd rfl herr
  | setMaxPWM m => exact hinv herr
  | updateLocal e =>
    have he : s.error ≠ HeaterError.NO_ERROR := herr
    rcases h with h | h
    · exact absurd h he
    · simp [Op.drives] at h
  | resetFromConfig p v d => exact hinv herr

theorem run_faultMode (os : List Op) (s : HeatManager)
    (hinv : s.error ≠ HeaterError.NO_ERROR → s.decoupleMode = DecoupleMode.NO_HEATING)
    (h : noneWhileFaulted Op.heats os s = true)
    (herr : (run os s).error ≠ HeaterError.NO_ERROR) :
    (run os s).decoupleMode = DecoupleMode.NO_HEATING := by
  induction os generalizing s with
  | nil => exact hinv herr
  | cons o os ih =>
    simp only [noneWhileFaulted, Bool.and_eq_true, Bool.or_eq_true, decide_eq_true_eq,
      Bool.not_eq_true'] at h
    exact ih (step o s) (step_faultMode o s hinv h.1) h.2 herr

theorem run_faultOutput (os : List Op) (s : HeatManager)
    (hinv : s.error ≠ HeaterError.NO_ERROR → s.lastOutput = some 0)
    (h : noneWhileFaulted Op.drives os s = true)
    (herr : (run os s).error ≠ HeaterError.NO_ERROR) :
    (run os s).lastOutput = some 0 := by
  induction os generalizing s with
  | nil => exact hinv herr
  | cons o os ih =>
    simp only [noneWhileFaulted, Bool.and_eq_true, Bool.or_eq_true, decide_eq_true_eq,
      Bool.not_eq_true'] at h
    exact ih (step o s) (step_faultOutput o s hinv h.1) h.2 herr

theorem step_target_not_above_max (o : Op) (s : HeatManager)
    (h : s.targetTemperature.gt s.maxTemperature = false) :
    (step o s).targetTemperature.gt (step o s).maxTemperature = false := by
  cases o with
  | setTargetTemperature temp now =>
    simp only [step, setTargetTemperature_maxTemperature]
    by_cases hg : temp.gt s.maxTemperature = true
    · have hs : s.setTargetTemperature temp now = s := by
        simp [HeatManager.setTargetTemperature, hg]
      rw [hs]
      exact h
    · have hg2 : temp.gt s.maxTemperature = false := by simpa using hg
      rw [setTargetTemperature_targetTemperature s temp now hg2]
      exact hg2
  | pause =>
    simp only [step]
    unfold HeatManager.pause
    split_ifs <;> exact h
  | unpause now =>
    simp only [step, HeatManager.unpause, setTargetTemperature_maxTemperature]
    rw [setTargetTemperature_targetTemperature s _ now h]
    exact h
  | setCurrentTemperature temp => exact h
  | setError err =>
    simp only [step]
    unfold HeatManager.setError
    split_ifs <;> exact h
  | resetError => exact h
  | setMaxPWM m => exact h
  | updateLocal e => exact h
  | resetFromConfig p v d => exact h

theorem run_target_not_above_max (os : List Op) (s : HeatManager)
    (h : s.targetTemperature.gt s.maxTemperature = false) :
    (run os s).targetTemperature.gt (run os s).maxTemperature = false := by
  induction os generalizing s with
  | nil => exact h
  | cons o os ih => exact ih (step o s) (step_target_not_above_max o s h)

theorem setTargetTemperature_accepted_congr (a b : HeatManager) (temp : Flt) (now : Nat)
    (hmax : a.maxTemperature = b.maxTemperature)
    (hcur : a.currentTemperature = b.currentTemperature)
    (htest : a.lastDecoupleTest = b.lastDecoupleTest)
    (htemp : a.lastDecoupleTemp = b.lastDecoupleTemp)
    (h : temp.gt b.maxTemperature = false) :
    (a.setTargetTemperature temp now).decoupleMode
      = (b.setTargetTemperature temp now).decoupleMode ∧
    (a.setTargetTemperature temp now).targetTemperature
      = (b.setTargetTemperature temp now).targetTemperature ∧
    (a.setTargetTemperature temp now).lastDecoupleTest
      = (b.setTargetTemperature temp now).lastDecoupleTest ∧
    (a.setTargetTemperature temp now).lastDecoupleTemp
      = (b.setTargetTemperature temp now).lastDecoupleTemp := by
  unfold HeatManager.setTargetTemperature
  rw [hmax, hcur]
  simp only [h]
  cases temp.le Flt.zero <;> cases temp.lt b.currentTemperature <;> simp [htest, htemp]

theorem pause_unpause_of_target_not_above_max (s : HeatManager) (now : Nat)
    (h : s.targetTemperature.gt s.maxTemperature = false) :
    (s.pause.unpause now).decoupleMode
      = (s.setTargetTemperature s.targetTemperature now).decoupleMode ∧
    (s.pause.unpause now).targetTemperature
      = (s.setTargetTemperature s.targetTemperature now).targetTemperature ∧
    (s.pause.unpause now).lastDecoupleTest
      = (s.setTargetTemperature s.targetTemperature now).lastDecoupleTest ∧
    (s.pause.unpause now).lastDecoupleTemp
      = (s.setTargetTemperature s.targetTemperature now).lastDecoupleTemp := by
  have ht : s.pause.targetTemperature = s.targetTemperature := by
    unfold HeatManager.pause
    split_ifs <;> rfl
  have hmax : s.pause.maxTemperature = s.maxTemperature := by
    unfold HeatManager.pause
    split_ifs <;> rfl
  have hcur : s.pause.currentTemperature = s.currentTemperature := by
    unfold HeatManager.pause
    split_ifs <;> rfl
  have htest : s.pause.lastDecoupleTest = s.lastDecoupleTest := by
    unfold HeatManager.pause
    split_ifs <;> rfl
  have htemp : s.pause.lastDecoupleTemp = s.lastDecoupleTemp := by
    unfold HeatManager.pause
    split_ifs <;> rfl
  rw [HeatManager.unpause, ht]
  exact setTargetTemperature_accepted_congr s.pause s s.targetTemperature now
    hmax hcur htest htemp h

/-! ## The fault latch -/

/-- C1, as stated, fails: starting from a heater without fault, `setError(NO_HEATUP)`
followed by `setTargetTemperature(200)` leaves the fault latched while the mode
is `FAST_RISING`; so does `unpause()` after a fault on a heater with the
stored target 200; and a Bang-Bang `updateLocal` issued while the fault is
latched (temperature 20 below target 200) commands `maxPWM = 255`. -/
theorem fault_invariant_broken_by_later_calls :
    sampleHeater.error = HeaterError.NO_ERROR ∧
    (run [Op.setError HeaterError.NO_HEATUP,
          Op.setTargetTemperature (Flt.fin 200) 1000] sampleHeater).error
      = HeaterError.NO_HEATUP ∧
    (run [Op.setError HeaterError.NO_HEATUP,
          Op.setTargetTemperature (Flt.fin 200) 1000] sampleHeater).decoupleMode
      = DecoupleMode.FAST_RISING ∧
    ¬ FaultInv (run [Op.setError HeaterError.NO_HEATUP,
          Op.setTargetTemperature (Flt.fin 200) 1000] sampleHeater) ∧
    (run [Op.setTargetTemperature (Flt.fin 200) 1000,
          Op.setError HeaterError.NO_HEATUP,
          Op.unpause 2000] sampleHeater).error = HeaterError.NO_HEATUP ∧
    (run [Op.setTargetTemperature (Flt.fin 200) 1000,
          Op.setError HeaterError.NO_HEATUP,
          Op.unpause 2000] sampleHeater).decoupleMode = DecoupleMode.FAST_RISING ∧
    (run [Op.setTargetTemperature (Flt.fin 200) 1000,
          Op.setError HeaterError.NO_HEATUP,
          Op.updateLocal (Flt.fin 180)] sampleHeater).error = HeaterError.NO_HEATUP ∧
    (run [Op.setTargetTemperature (Flt.fin 200) 1000,
          Op.setError HeaterError.NO_HEATUP,
          Op.updateLocal (Flt.fin 180)] sampleHeater).lastOutput = some 255 := by
  refine ⟨by decide, by decide, by decide, ?_, by decide, by decide, by decide, by decide⟩
  intro hinv
  have hmode := (hinv (by decide)).1
  exact absurd hmode (by decide)

/-- C1, amended: in every state reached from a state without fault by any
sequence of the operations, a latched fault means (a) mode `NO_HEATING`,
provided that no `unpause()` and no `setTargetTemperature(temp)` other than
with `temp <= 0` was called while a fault was latched, and (b) last commanded
output 0, provided that no Bang-Bang `updateLocal` was called while a fault
was latched; with both provisos the fault invariant holds. -/
theorem fault_invariant_by_halves (s0 : HeatManager) (os : List Op)
    (h0 : s0.error = HeaterError.NO_ERROR) :
    (noneWhileFaulted Op.heats os s0 = true →
      (run os s0).error ≠ HeaterError.NO_ERROR →
      (run os s0).decoupleMode = DecoupleMode.NO_HEATING) ∧
    (noneWhileFaulted Op.drives os s0 = true →
      (run os s0).error ≠ HeaterError.NO_ERROR →
      (run os s0).lastOutput = some 0) ∧
    (noneWhileFaulted Op.heats os s0 = true →
      noneWhileFaulted Op.drives os s0 = true →
      FaultInv (run os s0)) := by
  have hm := run_faultMode os s0 (fun hne => absurd h0 hne)
  have ho := run_faultOutput os s0 (fun hne => absurd h0 hne)
  exact ⟨hm, ho, fun h1 h2 herr => ⟨hm h1 herr, ho h2 herr⟩⟩

/-- C1, amended, at a concrete run: heat to 200 and drive the heater, then
fault, pause, switch off by a request of 0, sample 25 degrees, set `maxPWM`,
reconfigure. -/
theorem fault_invariant_by_halves_witness :
    sampleHeater.error = HeaterError.NO_ERROR ∧
    (run [Op.setTargetTemperature (Flt.fin 200) 1000, Op.updateLocal (Flt.fin 180),
        Op.setError HeaterError.NO_HEATUP, Op.pause,
        Op.setTargetTemperature (Flt.fin 0) 2000,
        Op.setCurrentTemperature (Flt.fin 25), Op.setMaxPWM 128,
        Op.resetFromConfig 200 (Flt.fin 4) 20000] sampleHeater).error
      = HeaterError.NO_HEATUP ∧
    FaultInv (run [Op.setTargetTemperature (Flt.fin 200) 1000, Op.updateLocal (Flt.fin 180),
        Op.setError HeaterError.NO_HEATUP, Op.pause,
        Op.setTargetTemperature (Flt.fin 0) 2000,
        Op.setCurrentTemperature (Flt.fin 25), Op.setMaxPWM 128,
        Op.resetFromConfig 200 (Flt.fin 4) 20000] sampleHeater) :=
  ⟨by decide, by decide,
    (fault_invariant_by_halves sampleHeater _ (by decide)).2.2 (by decide) (by decide)⟩

/-- C2: after `setError(err)` with `err` one of the three fault kinds, `error`
is `err`, exactly one value, 0, has been commanded to the Power Output, and
the mode is `NO_HEATING`, whatever the state was before. -/
theorem setError_fault_forces_off (s : HeatManager) (err : HeaterError)
    (h : err = HeaterError.SENSOR_DEFECT ∨ err = HeaterError.NO_HEATUP ∨
      err = HeaterError.LEAVING_RANGE) :
    (s.setError err).error = err ∧
    (s.setError err).output = 0 :: s.output ∧
    (s.setError err).lastOutput = some 0 ∧
    (s.setError err).decoupleMode = DecoupleMode.NO_HEATING := by
  have he : err ≠ HeaterError.NO_ERROR := by
    rcases h with h | h | h <;> simp [h]
  simp [HeatManager.setError, he, HeatManager.outputSet, HeatManager.lastOutput]

/-- C2 on a paused heater that receives `LEAVING_RANGE`. -/
theorem setError_fault_forces_off_witness :
    pausedHeater.decoupleMode = DecoupleMode.PAUSED ∧
    (pausedHeater.setError HeaterError.LEAVING_RANGE).error = HeaterError.LEAVING_RANGE ∧
    (pausedHeater.setError HeaterError.LEAVING_RANGE).output = 0 :: pausedHeater.output ∧
    (pausedHeater.setError HeaterError.LEAVING_RANGE).lastOutput = some 0 ∧
    (pausedHeater.setError HeaterError.LEAVING_RANGE).decoupleMode
      = DecoupleMode.NO_HEATING :=
  ⟨by decide,
    setError_fault_forces_off pausedHeater HeaterError.LEAVING_RANGE (Or.inr (Or.inr rfl))⟩

/-- C3: no operation other than `setError` and `resetError` changes `error`,
so after `setError(err)` with a fault `err`, `getError()` returns `err` after
any sequence of the other operations. -/
theorem error_is_latched :
    (∀ (s : HeatManager) (o : Op), o.writesError = false → (step o s).error = s.error) ∧
    (∀ (s : HeatManager) (err : HeaterError) (os : List Op),
      err ≠ HeaterError.NO_ERROR → os.all (fun o => !o.writesError) = true →
      (run os (s.setError err)).getError = err) := by
  refine ⟨fun s o h => step_error o s h, ?_⟩
  intro s err os herr hos
  rw [HeatManager.getError, run_error os _ hos]
  simp [HeatManager.setError, HeatManager.outputSet, herr]

/-- C3 at a concrete run of all seven other operations after
`setError(SENSOR_DEFECT)`. -/
theorem error_is_latched_witness :
    (step (Op.setTargetTemperature (Flt.fin 200) 1000)
        (holdingHeater.setError HeaterError.SENSOR_DEFECT)).error
      = HeaterError.SENSOR_DEFECT ∧
    (run [Op.setTargetTemperature (Flt.fin 200) 1000, Op.pause, Op.unpause 1500,
        Op.setCurrentTemperature (Flt.fin 30), Op.setMaxPWM 128,
        Op.updateLocal (Flt.fin 170), Op.resetFromConfig 200 (Flt.fin 4) 20000]
      (holdingHeater.setError HeaterError.SENSOR_DEFECT)).getError
      = HeaterError.SENSOR_DEFECT :=
  ⟨error_is_latched.1 _ _ (by decide),
    error_is_latched.2 holdingHeater HeaterError.SENSOR_DEFECT _ (by decide) (by decide)⟩

/-! ## `setTargetTemperature` -/

/-- C4: a request above `maxTemperature` is rejected and leaves the whole
state as it was: `targetTemperature`, `decoupleMode`, `lastDecoupleTest`,
`lastDecoupleTemp`, `error`, the log of commanded outputs and every other
member. -/
theorem setTargetTemperature_above_max_rejected (s : HeatManager) (temp : Flt) (now : Nat)
    (h : temp.gt s.maxTemperature = true) :
    s.setTargetTemperature temp now = s ∧
    (s.setTargetTemperature temp now).targetTemperature = s.targetTemperature ∧
    (s.setTargetTemperature temp now).decoupleMode = s.decoupleMode ∧
    (s.setTargetTemperature temp now).lastDecoupleTest = s.lastDecoupleTest ∧
    (s.setTargetTemperature temp now).lastDecoupleTemp = s.lastDecoupleTemp ∧
    (s.setTargetTemperature temp now).error = s.error ∧
    (s.setTargetTemperature temp now).output = s.output := by
  have hs : s.setTargetTemperature temp now = s := by
    simp [HeatManager.setTargetTemperature, h]
  simp [hs]

/-- C4 on a heater holding 200 with ceiling 300 that is asked for 301. -/
theorem setTargetTemperature_above_max_rejected_witness :
    (Flt.fin 301).gt holdingHeater.maxTemperature = true ∧
    holdingHeater.setTargetTemperature (Flt.fin 301) 7000 = holdingHeater :=
  ⟨by decide,
    (setTargetTemperature_above_max_rejected holdingHeater (Flt.fin 301) 7000 (by decide)).1⟩

/-- C5, as stated, fails: the heater satisfies `targetTemperature <=
maxTemperature` (0 and 300), and after `setTargetTemperature(NaN)`, which the
guard `temp > maxTemperature` lets through, the target is a NaN and the
comparison `targetTemperature <= maxTemperature` is false. -/
theorem target_le_max_broken_by_nan :
    sampleHeater.targetTemperature.le sampleHeater.maxTemperature = true ∧
    (step (Op.setTargetTemperature Flt.nan 1000) sampleHeater).targetTemperature = Flt.nan ∧
    (step (Op.setTargetTemperature Flt.nan 1000) sampleHeater).targetTemperature.le
      (step (Op.setTargetTemperature Flt.nan 1000) sampleHeater).maxTemperature = false := by
  decide

/-- C5, amended: `targetTemperature <= maxTemperature` is preserved by every
operation, with any argument except a NaN passed to `setTargetTemperature`. -/
theorem target_le_max_preserved (s : HeatManager) (o : Op)
    (hinv : s.targetTemperature.le s.maxTemperature = true)
    (harg : o.requestsNaN = false) :
    (step o s).targetTemperature.le (step o s).maxTemperature = true := by
  cases o with
  | setTargetTemperature temp now =>
    simp only [step, setTargetTemperature_maxTemperature]
    by_cases hg : temp.gt s.maxTemperature = true
    · have hs : s.setTargetTemperature temp now = s := by
        simp [HeatManager.setTargetTemperature, hg]
      rw [hs]
      exact hinv
    · have hg2 : temp.gt s.maxTemperature = false := by simpa using hg
      rw [setTargetTemperature_targetTemperature s temp now hg2]
      exact Flt.le_of_gt_eq_false harg (Flt.isNaN_eq_false_of_le hinv).2 hg2
  | pause =>
    have ht : s.pause.targetTemperature = s.targetTemperature := by
      unfold HeatManager.pause
      split_ifs <;> rfl
    have hm : s.pause.maxTemperature = s.maxTemperature := by
      unfold HeatManager.pause
      split_ifs <;> rfl
    simp only [step, ht, hm, hinv]
  | unpause now =>
    simp only [step, HeatManager.unpause, setTargetTemperature_maxTemperature]
    rw [setTargetTemperature_targetTemperature s _ now (Flt.gt_eq_false_of_le hinv)]
    exact hinv
  | setCurrentTemperature temp => exact hinv
  | setError err =>
    have ht : (s.setError err).targetTemperature = s.targetTemperature := by
      unfold HeatManager.setError
      split_ifs <;> rfl
    have hm : (s.setError err).maxTemperature = s.maxTemperature := by
      unfold HeatManager.setError
      split_ifs <;> rfl
    simp only [step, ht, hm, hinv]
  | resetError => exact hinv
  | setMaxPWM m => exact hinv
  | updateLocal e => exact hinv
  | resetFromConfig p v d => exact hinv

/-- C5, amended, on a heater with target 0 and ceiling 300 that is asked for
250. -/
theorem target_le_max_preserved_witness :
    sampleHeater.targetTemperature.le sampleHeater.maxTemperature = true ∧
    (step (Op.setTargetTemperature (Flt.fin 250) 1000) sampleHeater).targetTemperature.le
      (step (Op.setTargetTemperature (Flt.fin 250) 1000) sampleHeater).maxTemperature = true :=
  ⟨by decide,
    target_le_max_preserved sampleHeater (Op.setTargetTemperature (Flt.fin 250) 1000)
      (by decide) (by decide)⟩

/-- C6, as stated, fails: with a ceiling of -10 the request -5 is `<= 0` but
above the ceiling, so it is rejected and the mode stays `HOLDING`. -/
theorem setTargetTemperature_nonpositive_rejected :
    (Flt.fin (-5)).le Flt.zero = true ∧
    subZeroCeilingHeater.decoupleMode = DecoupleMode.HOLDING ∧
    (subZeroCeilingHeater.setTargetTemperature (Flt.fin (-5)) 1000).decoupleMode
      = DecoupleMode.HOLDING ∧
    (subZeroCeilingHeater.setTargetTemperature (Flt.fin (-5)) 1000).decoupleMode
      ≠ DecoupleMode.NO_HEATING := by
  decide

/-- C6, amended: for every `temp <= 0` that is not above `maxTemperature` (as
is the case whenever `0 <= maxTemperature`), the mode after
`setTargetTemperature(temp)` is `NO_HEATING`. -/
theorem setTargetTemperature_nonpositive_off (s : HeatManager) (temp : Flt) (now : Nat)
    (h0 : temp.le Flt.zero = true)
    (hacc : temp.gt s.maxTemperature = false ∨ Flt.zero.le s.maxTemperature = true) :
    (s.setTargetTemperature temp now).decoupleMode = DecoupleMode.NO_HEATING := by
  have hg : temp.gt s.maxTemperature = false := by
    rcases hacc with h | h
    · exact h
    · exact Flt.gt_eq_false_of_le (Flt.le_chain h0 h)
  simp [HeatManager.setTargetTemperature, hg, h0]

/-- C6, amended, on a heater holding 200 that is switched off by a request
of 0. -/
theorem setTargetTemperature_nonpositive_off_witness :
    (Flt.fin 0).le Flt.zero = true ∧
    Flt.zero.le holdingHeater.maxTemperature = true ∧
    (holdingHeater.setTargetTemperature (Flt.fin 0) 9000).decoupleMode
      = DecoupleMode.NO_HEATING :=
  ⟨by decide, by decide,
    setTargetTemperature_nonpositive_off holdingHeater (Flt.fin 0) 9000 (by decide)
      (Or.inr (by decide))⟩

/-- C7, as stated, fails: with the sensor at -5 and ceiling 300, the request 0
satisfies `currentTemperature < temp <= maxTemperature`, yet the mode becomes
`NO_HEATING` and `lastDecoupleTemp` keeps its old value -8. -/
theorem setTargetTemperature_zero_above_current :
    frostHeater.currentTemperature.lt (Flt.fin 0) = true ∧
    (Flt.fin 0).le frostHeater.maxTemperature = true ∧
    (frostHeater.setTargetTemperature (Flt.fin 0) 1000).decoupleMode
      = DecoupleMode.NO_HEATING ∧
    (frostHeater.setTargetTemperature (Flt.fin 0) 1000).decoupleMode
      ≠ DecoupleMode.FAST_RISING ∧
    (frostHeater.setTargetTemperature (Flt.fin 0) 1000).lastDecoupleTemp
      ≠ frostHeater.currentTemperature := by
  decide

/-- C7, amended: for every `temp` with `currentTemperature < temp <=
maxTemperature` and `0 < temp`, after `setTargetTemperature(temp)` the mode is
`FAST_RISING` and `lastDecoupleTemp` is the `currentTemperature` of the call. -/
theorem setTargetTemperature_heating_fast_rising (s : HeatManager) (temp : Flt) (now : Nat)
    (hcur : s.currentTemperature.lt temp = true)
    (hmax : temp.le s.maxTemperature = true)
    (hpos : Flt.zero.lt temp = true) :
    (s.setTargetTemperature temp now).decoupleMode = DecoupleMode.FAST_RISING ∧
    (s.setTargetTemperature temp now).lastDecoupleTemp = s.currentTemperature := by
  have hg := Flt.gt_eq_false_of_le hmax
  have h0 := Flt.le_eq_false_of_lt hpos
  have hc := Flt.lt_eq_false_of_lt hcur
  simp [HeatManager.setTargetTemperature, hg, h0, hc]

/-- C7, amended, for a heater at 20 degrees that is asked for 200. -/
theorem setTargetTemperature_heating_fast_rising_witness :
    sampleHeater.currentTemperature.lt (Flt.fin 200) = true ∧
    (Flt.fin 200).le sampleHeater.maxTemperature = true ∧
    Flt.zero.lt (Flt.fin 200) = true ∧
    (sampleHeater.setTargetTemperature (Flt.fin 200) 1000).decoupleMode
      = DecoupleMode.FAST_RISING ∧
    (sampleHeater.setTargetTemperature (Flt.fin 200) 1000).lastDecoupleTemp
      = sampleHeater.currentTemperature :=
  ⟨by decide, by decide, by decide,
    setTargetTemperature_heating_fast_rising sampleHeater (Flt.fin 200) 1000
      (by decide) (by decide) (by decide)⟩

/-- C8: an accepted request (`temp <= maxTemperature`) at clock value `now`
sets the mode to `NO_HEATING` if `temp <= 0`, to `COOLING` if
`0 < temp < currentTemperature` and to `FAST_RISING` otherwise; the decouple
baseline becomes `now` and `currentTemperature` in the `FAST_RISING` case and
is left as it was in the other two. -/
theorem setTargetTemperature_accepted_modes (s : HeatManager) (temp : Flt) (now : Nat)
    (hmax : temp.le s.maxTemperature = true) :
    (temp.le Flt.zero = true →
      (s.setTargetTemperature temp now).decoupleMode = DecoupleMode.NO_HEATING ∧
      (s.setTargetTemperature temp now).lastDecoupleTest = s.lastDecoupleTest ∧
      (s.setTargetTemperature temp now).lastDecoupleTemp = s.lastDecoupleTemp) ∧
    (Flt.zero.lt temp = true ∧ temp.lt s.currentTemperature = true →
      (s.setTargetTemperature temp now).decoupleMode = DecoupleMode.COOLING ∧
      (s.setTargetTemperature temp now).lastDecoupleTest = s.lastDecoupleTest ∧
      (s.setTargetTemperature temp now).lastDecoupleTemp = s.lastDecoupleTemp) ∧
    (¬ temp.le Flt.zero = true →
      ¬ (Flt.zero.lt temp = true ∧ temp.lt s.currentTemperature = true) →
      (s.setTargetTemperature temp now).decoupleMode = DecoupleMode.FAST_RISING ∧
      (s.setTargetTemperature temp now).lastDecoupleTest = now ∧
      (s.setTargetTemperature temp now).lastDecoupleTemp = s.currentTemperature) := by
  have hg := Flt.gt_eq_false_of_le hmax
  have hnan := (Flt.isNaN_eq_false_of_le hmax).1
  refine ⟨?_, ?_, ?_⟩
  · intro h0
    simp [HeatManager.setTargetTemperature, hg, h0]
  · rintro ⟨hpos, hlt⟩
    have h0 := Flt.le_eq_false_of_lt hpos
    simp [HeatManager.setTargetTemperature, hg, h0, hlt]
  · intro h0 hnc
    have hpos : Flt.zero.lt temp = true := by
      cases temp <;> simp_all [Flt.le, Flt.lt, Flt.zero, Flt.isNaN]
    have hlt : temp.lt s.currentTemperature = false := by
      cases hc : temp.lt s.currentTemperature
      · rfl
      · exact absurd ⟨hpos, hc⟩ hnc
    simp [HeatManager.setTargetTemperature, hg, h0, hlt]

/-- C8 for a heater holding 200 that is asked for exactly 200 at clock value
9000: the mode is `FAST_RISING` and the baseline is taken anew. -/
theorem setTargetTemperature_accepted_modes_witness :
    (Flt.fin 200).le holdingHeater.maxTemperature = true ∧
    (holdingHeater.setTargetTemperature (Flt.fin 200) 9000).decoupleMode
      = DecoupleMode.FAST_RISING ∧
    (holdingHeater.setTargetTemperature (Flt.fin 200) 9000).lastDecoupleTest = 9000 ∧
    (holdingHeater.setTargetTemperature (Flt.fin 200) 9000).lastDecoupleTemp
      = holdingHeater.currentTemperature :=
  ⟨by decide,
    (setTargetTemperature_accepted_modes holdingHeater (Flt.fin 200) 9000 (by decide)).2.2
      (by decide) (by decide)⟩

/-- C9: after an accepted request (`temp <= maxTemperature`),
`getTargetTemperature()` returns exactly `temp`, and the mode is one of
`NO_HEATING`, `COOLING` and `FAST_RISING`. -/
theorem setTargetTemperature_stores_request (s : HeatManager) (temp : Flt) (now : Nat)
    (hmax : temp.le s.maxTemperature = true) :
    (s.setTargetTemperature temp now).getTargetTemperature = temp ∧
    ((s.setTargetTemperature temp now).decoupleMode = DecoupleMode.NO_HEATING ∨
     (s.setTargetTemperature temp now).decoupleMode = DecoupleMode.COOLING ∨
     (s.setTargetTemperature temp now).decoupleMode = DecoupleMode.FAST_RISING) := by
  have hg := Flt.gt_eq_false_of_le hmax
  refine ⟨setTargetTemperature_targetTemperature s temp now hg, ?_⟩
  unfold HeatManager.setTargetTemperature
  split_ifs <;> simp_all

/-- C9 for a heater holding 200 that is switched off by a request of 0: the
stored target is 0. -/
theorem setTargetTemperature_stores_request_witness :
    (Flt.fin 0).le holdingHeater.maxTemperature = true ∧
    (holdingHeater.setTargetTemperature (Flt.fin 0) 9000).getTargetTemperature = Flt.fin 0 ∧
    (holdingHeater.setTargetTemperature (Flt.fin 0) 9000).decoupleMode
      = DecoupleMode.NO_HEATING :=
  ⟨by decide,
    (setTargetTemperature_stores_request holdingHeater (Flt.fin 0) 9000 (by decide)).1,
    by decide⟩

/-! ## `pause` -/

/-- C10: if the mode is not `NO_HEATING`, `pause()` sets it to `PAUSED` and
commands the single value 0 to the Power Output; if the mode is `NO_HEATING`,
`pause()` changes nothing.  In both cases `targetTemperature`, `error`,
`currentTemperature` and the decouple baseline are unchanged. -/
theorem pause_effect (s : HeatManager) :
    (s.decoupleMode ≠ DecoupleMode.NO_HEATING →
      s.pause.decoupleMode = DecoupleMode.PAUSED ∧
      s.pause.output = 0 :: s.output ∧
      s.pause.lastOutput = some 0) ∧
    (s.decoupleMode = DecoupleMode.NO_HEATING →
      s.pause = s ∧
      s.pause.decoupleMode = DecoupleMode.NO_HEATING ∧
      s.pause.output = s.output) ∧
    s.pause.targetTemperature = s.targetTemperature ∧
    s.pause.error = s.error ∧
    s.pause.currentTemperature = s.currentTemperature ∧
    s.pause.lastDecoupleTest = s.lastDecoupleTest ∧
    s.pause.lastDecoupleTemp = s.lastDecoupleTemp := by
  by_cases h : s.decoupleMode = DecoupleMode.NO_HEATING
  · simp [HeatManager.pause, h]
  · simp [HeatManager.pause, h, HeatManager.outputSet, HeatManager.lastOutput]

/-- C10 for a heater holding 200 with 255 commanded last. -/
theorem pause_effect_witness :
    holdingHeater.decoupleMode ≠ DecoupleMode.NO_HEATING ∧
    holdingHeater.pause.decoupleMode = DecoupleMode.PAUSED ∧
    holdingHeater.pause.output = 0 :: holdingHeater.output ∧
    holdingHeater.pause.lastOutput = some 0 :=
  ⟨by decide, (pause_effect holdingHeater).1 (by decide)⟩

/-- C11, as stated, fails: on a switched-off heater (`NO_HEATING`, nothing
commanded yet) two calls of `pause()` leave the mode `NO_HEATING`, not
`PAUSED`, and command nothing. -/
theorem pause_twice_on_off_heater :
    sampleHeater.decoupleMode = DecoupleMode.NO_HEATING ∧
    sampleHeater.pause.pause.decoupleMode = DecoupleMode.NO_HEATING ∧
    sampleHeater.pause.pause.decoupleMode ≠ DecoupleMode.PAUSED ∧
    sampleHeater.pause.pause.output = [] ∧
    sampleHeater.pause.pause.lastOutput ≠ some 0 := by
  decide

/-- C11, amended: two calls of `pause()` in a row leave the same data members
and the same last commanded value as one call; the result is `PAUSED` with 0
commanded last when the mode before was not `NO_HEATING`, and the unchanged
state when it was `NO_HEATING`. -/
theorem pause_idempotent (s : HeatManager) :
    s.pause.pause.members = s.pause.members ∧
    s.pause.pause.lastOutput = s.pause.lastOutput ∧
    (s.decoupleMode ≠ DecoupleMode.NO_HEATING →
      s.pause.pause.decoupleMode = DecoupleMode.PAUSED ∧
      s.pause.pause.lastOutput = some 0) ∧
    (s.decoupleMode = DecoupleMode.NO_HEATING → s.pause.pause = s) := by
  by_cases h : s.decoupleMode = DecoupleMode.NO_HEATING
  · simp [HeatManager.pause, h]
  · simp [HeatManager.pause, h, HeatManager.outputSet, HeatManager.lastOutput,
      HeatManager.members]

/-- C11, amended, on a heater holding 200. -/
theorem pause_idempotent_witness :
    holdingHeater.decoupleMode ≠ DecoupleMode.NO_HEATING ∧
    holdingHeater.pause.pause.decoupleMode = DecoupleMode.PAUSED ∧
    holdingHeater.pause.pause.lastOutput = some 0 :=
  ⟨by decide, (pause_idempotent holdingHeater).2.2.1 (by decide)⟩

/-- C12: for every state reached, by any sequence of the operations with any
arguments, from a state whose stored `targetTemperature` is not above
`maxTemperature` (the data-model invariant; the empty sequence gives that
state itself), the mode after `pause()` followed by `unpause()` is the mode
that `setTargetTemperature(targetTemperature)` applied directly would have
produced, and so are the stored target and the decouple baseline. -/
theorem pause_unpause_round_trip (s0 : HeatManager) (os : List Op) (now : Nat)
    (h0 : s0.targetTemperature.gt s0.maxTemperature = false) :
    ((run os s0).pause.unpause now).decoupleMode
      = ((run os s0).setTargetTemperature (run os s0).targetTemperature now).decoupleMode ∧
    ((run os s0).pause.unpause now).targetTemperature
      = ((run os s0).setTargetTemperature
          (run os s0).targetTemperature now).targetTemperature ∧
    ((run os s0).pause.unpause now).lastDecoupleTest
      = ((run os s0).setTargetTemperature
          (run os s0).targetTemperature now).lastDecoupleTest ∧
    ((run os s0).pause.unpause now).lastDecoupleTemp
      = ((run os s0).setTargetTemperature
          (run os s0).targetTemperature now).lastDecoupleTemp :=
  pause_unpause_of_target_not_above_max (run os s0) now
    (run_target_not_above_max os s0 h0)

/-- C12 on a heater at 20 degrees that is asked for 200 and reaches 205
degrees: after the round trip the mode is `COOLING`, as after
`setTargetTemperature(200)`; and on a heater holding 200, taken as it is, the
mode is `FAST_RISING` both ways. -/
theorem pause_unpause_round_trip_witness :
    sampleHeater.targetTemperature.gt sampleHeater.maxTemperature = false ∧
    ((run [Op.setTargetTemperature (Flt.fin 200) 1000,
        Op.setCurrentTemperature (Flt.fin 205)] sampleHeater).pause.unpause 9000).decoupleMode
      = ((run [Op.setTargetTemperature (Flt.fin 200) 1000,
          Op.setCurrentTemperature (Flt.fin 205)] sampleHeater).setTargetTemperature
          (run [Op.setTargetTemperature (Flt.fin 200) 1000,
            Op.setCurrentTemperature (Flt.fin 205)] sampleHeater).targetTemperature
          9000).decoupleMode ∧
    ((run [Op.setTargetTemperature (Flt.fin 200) 1000,
        Op.setCurrentTemperature (Flt.fin 205)] sampleHeater).pause.unpause 9000).decoupleMode
      = DecoupleMode.COOLING ∧
    ((run [] holdingHeater).pause.unpause 9000).decoupleMode = DecoupleMode.FAST_RISING :=
  ⟨by decide,
    (pause_unpause_round_trip sampleHeater
      [Op.setTargetTemperature (Flt.fin 200) 1000, Op.setCurrentTemperature (Flt.fin 205)]
      9000 (by decide)).1,
    by decide, by decide⟩

/-! ## The Bang-Bang strategy and the fault operations -/

/-- C13: `updateLocal(tempError)` of the Bang-Bang heater commands the Power
Output exactly once, with 0 if `currentTemperature > targetTemperature` and
with `maxPWM` otherwise; the commanded value is at most `maxPWM`, and no data
member of the heater is changed. -/
theorem updateLocal_bang_bang (s : HeatManager) (tempError : Flt) :
    (HeatManagerBangBang.updateLocal tempError s).output
      = (if s.currentTemperature.gt s.targetTemperature then 0 else s.maxPWM) :: s.output ∧
    (HeatManagerBangBang.updateLocal tempError s).output.length = s.output.length + 1 ∧
    (HeatManagerBangBang.updateLocal tempError s).lastOutput
      = some (if s.currentTemperature.gt s.targetTemperature then 0 else s.maxPWM) ∧
    (if s.currentTemperature.gt s.targetTemperature then 0 else s.maxPWM) ≤ s.maxPWM ∧
    (HeatManagerBangBang.updateLocal tempError s).members = s.members := by
  refine ⟨rfl, ?_, rfl, ?_, rfl⟩
  · simp [HeatManagerBangBang.updateLocal, HeatManager.outputSet]
  · split_ifs <;> simp

/-- C14, as stated, fails: with the sample -5 and the request 0, which lies
above the sample and below the ceiling 300, the mode becomes `NO_HEATING`, not
`FAST_RISING` (and the next `updateLocal` still commands `maxPWM = 255`). -/
theorem heat_up_to_zero_switches_off :
    (Flt.fin (-5)).lt (Flt.fin 0) = true ∧
    (Flt.fin 0).le (holdingHeater.setCurrentTemperature (Flt.fin (-5))).maxTemperature
      = true ∧
    ((holdingHeater.setCurrentTemperature (Flt.fin (-5))).setTargetTemperature
      (Flt.fin 0) 1000).decoupleMode = DecoupleMode.NO_HEATING ∧
    ((holdingHeater.setCurrentTemperature (Flt.fin (-5))).setTargetTemperature
      (Flt.fin 0) 1000).decoupleMode ≠ DecoupleMode.FAST_RISING ∧
    (HeatManagerBangBang.updateLocal (Flt.fin 5)
      ((holdingHeater.setCurrentTemperature (Flt.fin (-5))).setTargetTemperature
        (Flt.fin 0) 1000)).lastOutput = some 255 := by
  decide

/-- C14, amended: for every Bang-Bang heater, after `setCurrentTemperature(cur)`
and `setTargetTemperature(temp)` with `cur < temp <= maxTemperature` and
`0 < temp`, the mode is `FAST_RISING` and the next `updateLocal` commands
`maxPWM`. -/
theorem heat_up_scenario (s : HeatManager) (cur temp tempError : Flt) (now : Nat)
    (hcur : cur.lt temp = true)
    (hmax : temp.le s.maxTemperature = true)
    (hpos : Flt.zero.lt temp = true) :
    ((s.setCurrentTemperature cur).setTargetTemperature temp now).decoupleMode
      = DecoupleMode.FAST_RISING ∧
    (HeatManagerBangBang.updateLocal tempError
      ((s.setCurrentTemperature cur).setTargetTemperature temp now)).output
      = s.maxPWM :: s.output ∧
    (HeatManagerBangBang.updateLocal tempError
      ((s.setCurrentTemperature cur).setTargetTemperature temp now)).lastOutput
      = some s.maxPWM := by
  have hg : temp.gt s.maxTemperature = false := Flt.gt_eq_false_of_le hmax
  have h0 := Flt.le_eq_false_of_lt hpos
  have hc := Flt.lt_eq_false_of_lt hcur
  have hgt : cur.gt temp = false := by
    simpa [Flt.gt] using hc
  simp [HeatManagerBangBang.updateLocal, HeatManager.outputSet, HeatManager.lastOutput,
    HeatManager.setTargetTemperature, HeatManager.setCurrentTemperature, hg, h0, hc, hgt]

/-- C14, amended, at the scenario of the specification: heater at 20, target
200, `maxPWM = 255` gives `FAST_RISING` and output 255. -/
theorem heat_up_scenario_witness :
    sampleHeater.maxPWM = 255 ∧
    ((sampleHeater.setCurrentTemperature (Flt.fin 20)).setTargetTemperature
      (Flt.fin 200) 1000).decoupleMode = DecoupleMode.FAST_RISING ∧
    (HeatManagerBangBang.updateLocal (Flt.fin 180)
      ((sampleHeater.setCurrentTemperature (Flt.fin 20)).setTargetTemperature
        (Flt.fin 200) 1000)).output = sampleHeater.maxPWM :: sampleHeater.output ∧
    (HeatManagerBangBang.updateLocal (Flt.fin 180)
      ((sampleHeater.setCurrentTemperature (Flt.fin 20)).setTargetTemperature
        (Flt.fin 200) 1000)).lastOutput = some sampleHeater.maxPWM :=
  ⟨by decide,
    heat_up_scenario sampleHeater (Flt.fin 20) (Flt.fin 200) (Flt.fin 180) 1000
      (by decide) (by decide) (by decide)⟩

/-- C15: `setError(NO_ERROR)` produces exactly the state that `resetError()`
produces: `error` is `NO_ERROR`, and the mode, the target and the log of
commanded values are as before. -/
theorem setError_no_error_is_reset (s : HeatManager) :
    s.setError HeaterError.NO_ERROR = s.resetError ∧
    (s.setError HeaterError.NO_ERROR).error = HeaterError.NO_ERROR ∧
    (s.setError HeaterError.NO_ERROR).decoupleMode = s.decoupleMode ∧
    (s.setError HeaterError.NO_ERROR).targetTemperature = s.targetTemperature ∧
    (s.setError HeaterError.NO_ERROR).output = s.output := by
  simp [HeatManager.setError, HeatManager.resetError]

/-- C16, as stated, fails: `setError(SENSOR_DEFECT)` on a paused heater leaves
the mode `PAUSED` for `NO_HEATING`, and it is neither `setTargetTemperature`
nor `unpause`. -/
theorem paused_left_by_setError :
    pausedHeater.decoupleMode = DecoupleMode.PAUSED ∧
    (step (Op.setError HeaterError.SENSOR_DEFECT) pausedHeater).decoupleMode
      = DecoupleMode.NO_HEATING ∧
    (step (Op.setError HeaterError.SENSOR_DEFECT) pausedHeater).decoupleMode
      ≠ DecoupleMode.PAUSED ∧
    (Op.setError HeaterError.SENSOR_DEFECT).setsTarget = false := by
  decide

/-- C16, amended: over the operations of the header, the mode `PAUSED` is
entered only by `pause()`, and it is left only by `setTargetTemperature`, by
`unpause` or by `setError` with a fault. -/
theorem paused_entered_and_left (s : HeatManager) (o : Op) :
    ((step o s).decoupleMode = DecoupleMode.PAUSED →
      s.decoupleMode ≠ DecoupleMode.PAUSED → o = Op.pause) ∧
    (s.decoupleMode = DecoupleMode.PAUSED →
      (step o s).decoupleMode ≠ DecoupleMode.PAUSED →
      o.setsTarget = true ∨ o.setsFault = true) := by
  cases o with
  | setTargetTemperature temp now =>
    refine ⟨?_, fun _ _ => Or.inl rfl⟩
    intro hafter hbefore
    exfalso
    revert hafter
    simp only [step]
    unfold HeatManager.setTargetTemperature
    split_ifs <;> simp [hbefore]
  | pause =>
    refine ⟨fun _ _ => rfl, ?_⟩
    intro hbefore hafter
    exfalso
    apply hafter
    simp [step, HeatManager.pause, HeatManager.outputSet, hbefore]
  | unpause now =>
    refine ⟨?_, fun _ _ => Or.inl rfl⟩
    intro hafter hbefore
    exfalso
    revert hafter
    simp only [step, HeatManager.unpause]
    unfold HeatManager.setTargetTemperature
    split_ifs <;> simp [hbefore]
  | setCurrentTemperature temp =>
    exact ⟨fun ha hb => absurd ha hb, fun hb ha => absurd hb ha⟩
  | setError err =>
    by_cases he : err = HeaterError.NO_ERROR
    · subst he
      exact ⟨fun ha hb => absurd ha hb, fun hb ha => absurd hb ha⟩
    · refine ⟨?_, fun _ _ => Or.inr (by simp [Op.setsFault, he])⟩
      intro hafter _
      simp [step, HeatManager.setError, he] at hafter
  | resetError => exact ⟨fun ha hb => absurd ha hb, fun hb ha => absurd hb ha⟩
  | setMaxPWM m => exact ⟨fun ha hb => absurd ha hb, fun hb ha => absurd hb ha⟩
  | updateLocal e => exact ⟨fun ha hb => absurd ha hb, fun hb ha => absurd hb ha⟩
  | resetFromConfig p v d =>
    exact ⟨fun ha hb => absurd ha hb, fun hb ha => absurd hb ha⟩

/-- C16, amended, at two concrete steps: `pause()` on a holding heater enters
`PAUSED`, and `setError(SENSOR_DEFECT)` on a paused heater leaves it. -/
theorem paused_entered_and_left_witness :
    (step Op.pause holdingHeater).decoupleMode = DecoupleMode.PAUSED ∧
    holdingHeater.decoupleMode ≠ DecoupleMode.PAUSED ∧
    ((Op.setError HeaterError.SENSOR_DEFECT).setsTarget = true ∨
      (Op.setError HeaterError.SENSOR_DEFECT).setsFault = true) :=
  ⟨by decide, by decide,
    (paused_entered_and_left pausedHeater (Op.setError HeaterError.SENSOR_DEFECT)).2
      (by decide) (by decide)⟩

/-! ## Frames, `isEnabled` and what `updateLocal` reads -/

/-- C17: `setCurrentTemperature(t)` makes `getCurrentTemperature()` return `t`
and changes no other member and commands nothing, and every other operation
of the header leaves `currentTemperature` as it was. -/
theorem currentTemperature_written_only_by_sampling :
    (∀ (s : HeatManager) (t : Flt),
      (s.setCurrentTemperature t).getCurrentTemperature = t ∧
      { s.setCurrentTemperature t with currentTemperature := s.currentTemperature } = s ∧
      (s.setCurrentTemperature t).decoupleMode = s.decoupleMode ∧
      (s.setCurrentTemperature t).targetTemperature = s.targetTemperature ∧
      (s.setCurrentTemperature t).lastDecoupleTest = s.lastDecoupleTest ∧
      (s.setCurrentTemperature t).lastDecoupleTemp = s.lastDecoupleTemp ∧
      (s.setCurrentTemperature t).error = s.error ∧
      (s.setCurrentTemperature t).output = s.output) ∧
    (∀ (s : HeatManager) (o : Op), o.samples = false →
      (step o s).currentTemperature = s.currentTemperature) := by
  refine ⟨fun s t => ⟨rfl, rfl, rfl, rfl, rfl, rfl, rfl, rfl⟩, ?_⟩
  intro s o ho
  cases o with
  | setTargetTemperature temp now =>
    simp only [step]
    unfold HeatManager.setTargetTemperature
    split_ifs <;> rfl
  | pause =>
    simp only [step]
    unfold HeatManager.pause
    split_ifs <;> rfl
  | unpause now =>
    simp only [step, HeatManager.unpause]
    unfold HeatManager.setTargetTemperature
    split_ifs <;> rfl
  | setCurrentTemperature temp => simp [Op.samples] at ho
  | setError err =>
    simp only [step]
    unfold HeatManager.setError
    split_ifs <;> rfl
  | resetError => rfl
  | setMaxPWM m => rfl
  | updateLocal e => rfl
  | resetFromConfig p v d => rfl

/-- C17 at concrete calls: sampling 35 degrees on a holding heater, and a
`setTargetTemperature(100)` that leaves the sample alone. -/
theorem currentTemperature_written_only_by_sampling_witness :
    (holdingHeater.setCurrentTemperature (Flt.fin 35)).getCurrentTemperature = Flt.fin 35 ∧
    (step (Op.setTargetTemperature (Flt.fin 100) 1000) holdingHeater).currentTemperature
      = holdingHeater.currentTemperature :=
  ⟨(currentTemperature_written_only_by_sampling.1 holdingHeater (Flt.fin 35)).1,
    currentTemperature_written_only_by_sampling.2 holdingHeater
      (Op.setTargetTemperature (Flt.fin 100) 1000) (by decide)⟩

/-- C18: `isEnabled()` is true exactly when the mode is not `PAUSED` and
`targetTemperature > MAX_ROOM_TEMPERATURE`; `error` and the commanded output
have no part in it, and in every mode other than `PAUSED`, `NO_HEATING`
included, it is the comparison of the target with the threshold alone. -/
theorem isEnabled_characterised (maxRoomTemperature : Flt) (s : HeatManager) :
    (s.isEnabled maxRoomTemperature = true ↔
      s.decoupleMode ≠ DecoupleMode.PAUSED ∧
      s.targetTemperature.gt maxRoomTemperature = true) ∧
    (∀ (err : HeaterError) (out : List Nat),
      HeatManager.isEnabled maxRoomTemperature { s with error := err, output := out }
        = s.isEnabled maxRoomTemperature) ∧
    (∀ m : DecoupleMode, m ≠ DecoupleMode.PAUSED →
      HeatManager.isEnabled maxRoomTemperature { s with decoupleMode := m }
        = s.targetTemperature.gt maxRoomTemperature) := by
  refine ⟨?_, fun _ _ => rfl, ?_⟩
  · simp [HeatManager.isEnabled]
  · intro m hm
    simp [HeatManager.isEnabled, hm]

/-- C18 on a heater with a latched fault, mode `NO_HEATING` and target 200,
with the threshold 40: `isEnabled()` is true. -/
theorem isEnabled_characterised_witness :
    faultedHeater.decoupleMode = DecoupleMode.NO_HEATING ∧
    faultedHeater.error = HeaterError.NO_HEATUP ∧
    HeatManager.isEnabled (Flt.fin 40)
      { faultedHeater with decoupleMode := DecoupleMode.NO_HEATING }
      = faultedHeater.targetTemperature.gt (Flt.fin 40) ∧
    faultedHeater.isEnabled (Flt.fin 40) = true :=
  ⟨by decide, by decide,
    (isEnabled_characterised (Flt.fin 40) faultedHeater).2.2 DecoupleMode.NO_HEATING
      (by decide),
    by decide⟩

/-- C19: the value commanded by the Bang-Bang `updateLocal` depends only on
`currentTemperature`, `targetTemperature` and `maxPWM`: two heaters that agree
on these three members are commanded the same value, whatever the arguments,
modes and errors are. -/
theorem updateLocal_reads_three_members (s1 s2 : HeatManager) (e1 e2 : Flt)
    (hcur : s1.currentTemperature = s2.currentTemperature)
    (htarget : s1.targetTemperature = s2.targetTemperature)
    (hpwm : s1.maxPWM = s2.maxPWM) :
    (HeatManagerBangBang.updateLocal e1 s1).lastOutput
      = (HeatManagerBangBang.updateLocal e2 s2).lastOutput ∧
    (HeatManagerBangBang.updateLocal e1 s1).output.head?
      = some (if s2.currentTemperature.gt s2.targetTemperature then 0 else s2.maxPWM) := by
  simp [HeatManagerBangBang.updateLocal, HeatManager.outputSet, HeatManager.lastOutput,
    hcur, htarget, hpwm]

/-- C19 on a heater with a latched fault in mode `NO_HEATING` and a heater in
mode `FAST_RISING` without fault, both at 20 degrees with target 200: both are
commanded 255. -/
theorem updateLocal_reads_three_members_witness :
    faultedHeater.error ≠ risingHeater.error ∧
    faultedHeater.decoupleMode ≠ risingHeater.decoupleMode ∧
    (HeatManagerBangBang.updateLocal (Flt.fin 0) faultedHeater).lastOutput
      = (HeatManagerBangBang.updateLocal (Flt.fin 180) risingHeater).lastOutput ∧
    (HeatManagerBangBang.updateLocal (Flt.fin 0) faultedHeater).lastOutput = some 255 :=
  ⟨by decide, by decide,
    (updateLocal_reads_three_members faultedHeater risingHeater (Flt.fin 0) (Flt.fin 180)
      (by decide) (by decide) (by decide)).1,
    by decide⟩

/-- C20: `setTargetTemperature` commands nothing to the Power Output and
assigns at most `targetTemperature`, `decoupleMode`, `lastDecoupleTest` and
`lastDecoupleTemp`: for every state, request and clock value, the log of
commanded values, `error`, `currentTemperature`, `maxTemperature`, `maxPWM`,
`decoupleVariance`, `decouplePeriod` and all remaining members are as
before. -/
theorem setTargetTemperature_frame (s : HeatManager) (temp : Flt) (now : Nat) :
    (s.setTargetTemperature temp now).output = s.output ∧
    (s.setTargetTemperature temp now).error = s.error ∧
    (s.setTargetTemperature temp now).currentTemperature = s.currentTemperature ∧
    (s.setTargetTemperature temp now).maxTemperature = s.maxTemperature ∧
    (s.setTargetTemperature temp now).maxPWM = s.maxPWM ∧
    (s.setTargetTemperature temp now).decoupleVariance = s.decoupleVariance ∧
    (s.setTargetTemperature temp now).decouplePeriod = s.decouplePeriod ∧
    { s.setTargetTemperature temp now with
        targetTemperature := s.targetTemperature,
        decoupleMode := s.decoupleMode,
        lastDecoupleTest := s.lastDecoupleTest,
        lastDecoupleTemp := s.lastDecoupleTemp } = s := by
  unfold HeatManager.setTargetTemperature
  split_ifs <;> exact ⟨rfl, rfl, rfl, rfl, rfl, rfl, rfl, rfl⟩

end Repetier
